import Mathlib

set_option maxRecDepth 4096

/-! Verification of the to402 CLI project generator (src/src/generator.ts).
The generator is a pure function from a validated configuration record to the
text of the scaffolded project files.  The definitions below are a shallow
embedding of that generator: TypeScript template literals become Lean string
concatenations, JavaScript truthiness on optional strings is modelled by
`jsTruthyStr`/`orElseStr`, and the few runtime behaviours of the emitted
server that the specification talks about (startup validation, upstream URL
construction) are modelled as executable Lean functions of the emitted text. -/

/-- Authentication configuration record (src/src/types.ts).  The generator
reads the fields `type`, `value`, `username`, `password`, `headerName`,
`queryName`, `cookieName`, `customHeaders` and `customQueryParams`; JavaScript
object maps are modelled as association lists in insertion order. -/
structure AuthConfig where
  type : String
  value : Option String := none
  username : Option String := none
  password : Option String := none
  headerName : Option String := none
  queryName : Option String := none
  cookieName : Option String := none
  customHeaders : Option (List (String × String)) := none
  customQueryParams : Option (List (String × String)) := none
deriving DecidableEq

/-- One configured route: a path pattern and its price (src/src/types.ts). -/
structure RouteConfig where
  path : String
  price : String
deriving DecidableEq

/-- The validated configuration record handed to the generator
(src/src/types.ts ProjectConfig). -/
structure ProjectConfig where
  projectName : String
  description : String
  baseUrl : String
  defaultPrice : String
  sellerAddress : String
  network : String
  facilitatorUrl : Option String := none
  routes : List RouteConfig
  auth : Option AuthConfig := none
deriving DecidableEq

/-- JavaScript truthiness of an optional string: `undefined` and the empty
string are falsy, every other string is truthy. -/
def jsTruthyStr (o : Option String) : Bool :=
  match o with
  | some s => !s.isEmpty
  | none => false

/-- JavaScript `o || d` on an optional string: the default is taken when the
value is absent or empty. -/
def orElseStr (o : Option String) (d : String) : String :=
  match o with
  | some s => if s.isEmpty then d else s
  | none => d

/-- Model of JavaScript `String.prototype.toUpperCase` (per-character
uppercasing, exact for the ASCII keys the generator handles). -/
def jsToUpper (s : String) : String :=
  String.mk (s.data.map Char.toUpper)

/-- Model of JavaScript `String.prototype.toLowerCase` (per-character
lowercasing, exact for the ASCII keys the generator handles). -/
def jsToLower (s : String) : String :=
  String.mk (s.data.map Char.toLower)

/-- Environment-variable name sanitizer used by the custom-auth code paths:
`key.toUpperCase().replace(/[^A-Z0-9]/g, "_")` (src/src/generator.ts
lines 53, 66, 487, 498, 560, 571). -/
def sanitizeKey (key : String) : String :=
  String.mk ((jsToUpper key).data.map
    (fun ch => if ('A' ≤ ch ∧ ch ≤ 'Z') ∨ ('0' ≤ ch ∧ ch ≤ '9') then ch else '_'))

/-- Placeholder fragment for .env.example custom entries:
`key.toLowerCase().replace(/[^a-z0-9]/g, "-")` (src/src/generator.ts
lines 561, 572). -/
def lowerDashKey (key : String) : String :=
  String.mk ((jsToLower key).data.map
    (fun ch => if ('a' ≤ ch ∧ ch ≤ 'z') ∨ ('0' ≤ ch ∧ ch ≤ '9') then ch else '-'))

/-- JSON string-character escaping as performed by `JSON.stringify`. -/
def jsonEscapeChar (ch : Char) : String :=
  if ch = '"' then "\\\""
  else if ch = '\\' then "\\\\"
  else if ch = '\x08' then "\\b"
  else if ch = '\x09' then "\\t"
  else if ch = '\x0a' then "\\n"
  else if ch = '\x0c' then "\\f"
  else if ch = '\x0d' then "\\r"
  else if ch.toNat < 32 then
    "\\u00" ++ String.mk [Nat.digitChar (ch.toNat / 16), Nat.digitChar (ch.toNat % 16)]
  else String.singleton ch

/-- JSON escaping of a whole string. -/
def jsonEscape (s : String) : String :=
  String.join (s.data.map jsonEscapeChar)

/-- A JSON string literal, `JSON.stringify` of one string. -/
def jsonString (s : String) : String :=
  "\"" ++ jsonEscape s ++ "\""

/-- Path used as the payment-configuration key: the generator rewrites the
whole-path wildcard "/*" to "*" and leaves every other pattern unchanged
(src/src/generator.ts lines 151-155). -/
def paymentPathOf (p : String) : String :=
  if p = "/*" then "*" else p

/-- Path registered with `app.all`: the same conversion, "/*" to "*" and
every other pattern unchanged (src/src/generator.ts lines 165-170). -/
def routePathOf (p : String) : String :=
  if p = "/*" then "*" else p

/-- `JSON.stringify(config.routes.map(r => ({ path: r.path, price: r.price })))`
embedded in the 404 handler (src/src/generator.ts line 362). -/
def availableRoutesJson (routes : List RouteConfig) : String :=
  "[" ++ String.intercalate ","
    (routes.map (fun r =>
      "\x7b\"path\":" ++ jsonString r.path ++ ",\"price\":" ++ jsonString r.price ++ "\x7d")) ++ "]"

/-- The FACILITATOR_URL value written into both environment files:
`config.facilitatorUrl || "https://facilitator.payai.network"`
(src/src/generator.ts lines 508 and 581). -/
def envFacilitatorValue (c : ProjectConfig) : String :=
  orElseStr c.facilitatorUrl "https://facilitator.payai.network"
/-- Declaration line for one custom auth header (src/src/generator.ts lines 52-57). -/
def customHeaderDecl (key value : String) : String :=
  let envVarName := "CUSTOM_HEADER_" ++ sanitizeKey key
  "const " ++ envVarName ++ " = process.env." ++ envVarName ++ " || \"" ++ value ++ "\";\ncustomHeaders[\"" ++ key ++ "\"] = " ++ envVarName ++ ";"

/-- Declaration line for one custom auth query parameter (src/src/generator.ts lines 65-70). -/
def customQueryDecl (key value : String) : String :=
  let envVarName := "CUSTOM_QUERY_" ++ sanitizeKey key
  "const " ++ envVarName ++ " = process.env." ++ envVarName ++ " || \"" ++ value ++ "\";\ncustomQueryParams[\"" ++ key ++ "\"] = " ++ envVarName ++ ";"

/-- One .env line for a custom auth header (src/src/generator.ts lines 486-489). -/
def envCustomHeaderLine (key value : String) : String :=
  "CUSTOM_HEADER_" ++ sanitizeKey key ++ "=" ++ value

/-- One .env line for a custom auth query parameter (src/src/generator.ts lines 497-499). -/
def envCustomQueryLine (key value : String) : String :=
  "CUSTOM_QUERY_" ++ sanitizeKey key ++ "=" ++ value

/-- One .env.example line for a custom auth header (src/src/generator.ts lines 559-562). -/
def exampleCustomHeaderLine (key : String) : String :=
  "CUSTOM_HEADER_" ++ sanitizeKey key ++ "=your-" ++ lowerDashKey key ++ "-value-here"

/-- One .env.example line for a custom auth query parameter (src/src/generator.ts lines 570-572). -/
def exampleCustomQueryLine (key : String) : String :=
  "CUSTOM_QUERY_" ++ sanitizeKey key ++ "=your-" ++ lowerDashKey key ++ "-value-here"

/-- Translation of generateAuthConfig (src/src/generator.ts lines 13-77): the declaration fragment reading credentials from the environment. -/
def generateAuthConfig (auth : AuthConfig) : String :=
  if auth.type = "apiKey" then
    if jsTruthyStr auth.headerName then "const apiKeyHeader = process.env.API_KEY_HEADER || \"" ++ ((auth.headerName.getD "")) ++ "\";\nconst apiKeyValue = process.env.API_KEY;\nif (!apiKeyValue) \x7b\n  console.warn(\"⚠️  API Key not set in environment variables\");\n\x7d"
    else if jsTruthyStr auth.queryName then "const apiKeyQuery = process.env.API_KEY_QUERY || \"" ++ ((auth.queryName.getD "")) ++ "\";\nconst apiKeyValue = process.env.API_KEY;\nif (!apiKeyValue) \x7b\n  console.warn(\"⚠️  API Key not set in environment variables\");\n\x7d"
    else if jsTruthyStr auth.cookieName then "const apiKeyCookie = process.env.API_KEY_COOKIE || \"" ++ ((auth.cookieName.getD "")) ++ "\";\nconst apiKeyValue = process.env.API_KEY;\nif (!apiKeyValue) \x7b\n  console.warn(\"⚠️  API Key not set in environment variables\");\n\x7d"
    else ""
  else if auth.type = "bearer" then "const bearerToken = process.env.BEARER_TOKEN;\nif (!bearerToken) \x7b\n  console.warn(\"⚠️  Bearer Token not set in environment variables\");\n\x7d"
  else if auth.type = "basic" then "const basicAuthUsername = process.env.BASIC_AUTH_USERNAME;\nconst basicAuthPassword = process.env.BASIC_AUTH_PASSWORD;\nif (!basicAuthUsername || !basicAuthPassword) \x7b\n  console.warn(\"⚠️  Basic Auth credentials not set in environment variables\");\n\x7d"
  else if auth.type = "custom" then
    (match auth.customHeaders with | some hs => "// Custom headers\nconst customHeaders: Record<string, string> = \x7b\x7d;\n" ++ ((String.intercalate "\n" (hs.map (fun kv => customHeaderDecl kv.1 kv.2)))) ++ "\n" | none => "") ++
    (match auth.customQueryParams with | some qs => "// Custom query parameters\nconst customQueryParams: Record<string, string> = \x7b\x7d;\n" ++ ((String.intercalate "\n" (qs.map (fun kv => customQueryDecl kv.1 kv.2)))) ++ "\n" | none => "")
  else ""

/-- Translation of generateAuthCode (src/src/generator.ts lines 82-138): the injection fragment adding credentials to the outgoing request. -/
def generateAuthCode (auth : AuthConfig) : String :=
  if auth.type = "apiKey" then
    if jsTruthyStr auth.headerName then "    // Add API Key header\n    if (apiKeyValue) \x7b\n      headers.set(apiKeyHeader, apiKeyValue);\n    \x7d"
    else if jsTruthyStr auth.queryName then "    // Add API Key query parameter\n    if (apiKeyValue) \x7b\n      url.searchParams.append(apiKeyQuery, apiKeyValue);\n    \x7d"
    else if jsTruthyStr auth.cookieName then "    // Add API Key cookie\n    if (apiKeyValue) \x7b\n      const existingCookie = headers.get(\"Cookie\") || \"\";\n      headers.set(\"Cookie\", existingCookie ? `$\x7bexistingCookie\x7d; $\x7bapiKeyCookie\x7d=$\x7bapiKeyValue\x7d` : `$\x7bapiKeyCookie\x7d=$\x7bapiKeyValue\x7d`);\n    \x7d"
    else ""
  else if auth.type = "bearer" then "    // Add Bearer token\n    if (bearerToken) \x7b\n      headers.set(\"Authorization\", `Bearer $\x7bbearerToken\x7d`);\n    \x7d"
  else if auth.type = "basic" then "    // Add Basic Auth\n    if (basicAuthUsername && basicAuthPassword) \x7b\n      const credentials = Buffer.from(`$\x7bbasicAuthUsername\x7d:$\x7bbasicAuthPassword\x7d`).toString(\"base64\");\n      headers.set(\"Authorization\", `Basic $\x7bcredentials\x7d`);\n    \x7d"
  else if auth.type = "custom" then
    (match auth.customHeaders with | some _ => "    // Add custom headers\n    Object.entries(customHeaders).forEach(([key, value]) => \x7b\n      if (value) \x7b\n        headers.set(key, value);\n      \x7d\n    \x7d);\n" | none => "") ++
    (match auth.customQueryParams with | some _ => "    // Add custom query parameters\n    Object.entries(customQueryParams).forEach(([key, value]) => \x7b\n      if (value) \x7b\n        url.searchParams.append(key, value);\n      \x7d\n    \x7d);\n" | none => "")
  else ""

/-- Payment-configuration entry for one route (src/src/generator.ts lines 149-157). -/
def paymentConfigEntry (r : RouteConfig) : String :=
  "    \"" ++ (paymentPathOf r.path) ++ "\": \x7b\n      price: \"" ++ (r.price) ++ "\",\n      network,\n    \x7d"

/-- Joined payment-configuration entries (src/src/generator.ts line 158). -/
def paymentConfigEntries (c : ProjectConfig) : String :=
  String.intercalate ",\n" (c.routes.map paymentConfigEntry)

/-- The payment configuration object literal (src/src/generator.ts line 160). -/
def paymentConfigStr (c : ProjectConfig) : String :=
  "\x7b\n" ++ (paymentConfigEntries c) ++ "\n  \x7d"

/-- Startup route log line (src/src/generator.ts line 377). -/
def routeStartupLog (r : RouteConfig) : String :=
  "  console.log(`   - $\x7b\"" ++ r.path ++ "\"\x7d (Price: $\x7b\"" ++ r.price ++ "\"\x7d)`);"

/-- Proxy route handler text for one route (src/src/generator.ts lines 163-285). -/
def proxyRouteFor (c : ProjectConfig) (r : RouteConfig) : String :=
  "// Proxy route: " ++ (r.path) ++ "\napp.all(\"" ++ (routePathOf r.path) ++ "\", async (c) => \x7b\n  const requestId = crypto.randomUUID();\n  const startTime = Date.now();\n  \n  try \x7b\n    const timestamp = new Date().toISOString();\n    console.log(`\n📥 [$\x7btimestamp\x7d] [$\x7brequestId\x7d] Incoming request`);\n    console.log(`   Method: $\x7bc.req.method\x7d`);\n    console.log(`   Path: $\x7bc.req.path\x7d`);\n    console.log(`   URL: $\x7bc.req.url\x7d`);\n    \n    const baseUrl = new URL(apiBaseUrl);\n    // Remove leading slash from request path to properly append to base URL\n    const requestPath = c.req.path.startsWith(\"/\") ? c.req.path.slice(1) : c.req.path;\n    // Ensure base URL pathname ends with / for proper joining\n    const basePathname = baseUrl.pathname.endsWith(\"/\") ? baseUrl.pathname : baseUrl.pathname + \"/\";\n    // Construct the full pathname by joining base pathname with request path\n    const fullPathname = basePathname + requestPath;\n    // Create the final URL\n    const url = new URL(fullPathname, baseUrl);\n\n    // Forward query parameters\n    const searchParams = new URL(c.req.url).searchParams;\n    searchParams.forEach((value, key) => \x7b\n      url.searchParams.append(key, value);\n    \x7d);\n\n    console.log(`   🔄 Proxying to: $\x7burl.toString()\x7d`);\n\n    // Prepare headers (exclude host and connection headers)\n    const headers = new Headers();\n    c.req.raw.headers.forEach((value, key) => \x7b\n      if (key.toLowerCase() !== \"host\" && key.toLowerCase() !== \"connection\") \x7b\n        headers.set(key, value);\n      \x7d\n    \x7d);\n    headers.set(\"host\", baseUrl.host);\n" ++ ((match c.auth with | some a => generateAuthCode a | none => "")) ++ "\n\n    // Forward request to original API\n    const method = c.req.method;\n    const hasBody = method !== \"GET\" && method !== \"HEAD\";\n    \n    let response: Response;\n    try \x7b\n      response = await fetch(url.toString(), \x7b\n        method,\n        headers,\n        body: hasBody ? await c.req.raw.clone().arrayBuffer() : undefined,\n      \x7d);\n    \x7d catch (fetchError) \x7b\n      const duration = Date.now() - startTime;\n      console.error(`\n❌ [$\x7bnew Date().toISOString()\x7d] [$\x7brequestId\x7d] Fetch error after $\x7bduration\x7dms`);\n      console.error(`   Error: $\x7bfetchError instanceof Error ? fetchError.message : String(fetchError)\x7d`);\n      console.error(`   Target URL: $\x7burl.toString()\x7d`);\n      console.error(`\n💡 Troubleshooting tips:`);\n      console.error(`   - Verify the API base URL is correct: $\x7bapiBaseUrl\x7d`);\n      console.error(`   - Check if the upstream API is accessible`);\n      console.error(`   - Ensure network connectivity`);\n      if (fetchError instanceof Error && fetchError.stack) \x7b\n        console.error(`   Stack trace: $\x7bfetchError.stack\x7d`);\n      \x7d\n      return c.json(\x7b \n        error: \"Failed to proxy request\",\n        message: fetchError instanceof Error ? fetchError.message : String(fetchError),\n        requestId \n      \x7d, 502);\n    \x7d\n\n    const duration = Date.now() - startTime;\n    const statusEmoji = response.status >= 200 && response.status < 300 ? \"✅\" : \n                       response.status >= 400 && response.status < 500 ? \"⚠️\" : \n                       response.status >= 500 ? \"❌\" : \"ℹ️\";\n    console.log(`   $\x7bstatusEmoji\x7d Response: $\x7bresponse.status\x7d $\x7bresponse.statusText\x7d ($\x7bduration\x7dms)`);\n    \n    if (response.status >= 400) \x7b\n      console.warn(`   ⚠️  Upstream API returned error status`);\n      try \x7b\n        const errorBody = await response.clone().text();\n        if (errorBody) \x7b\n          console.warn(`   Response body: $\x7berrorBody.substring(0, 200)\x7d$\x7berrorBody.length > 200 ? \"...\" : \"\"\x7d`);\n        \x7d\n      \x7d catch \x7b\n        // Ignore error body parsing errors\n      \x7d\n    \x7d\n\n    // Forward response\n    const responseBody = await response.arrayBuffer();\n    return new Response(responseBody, \x7b\n      status: response.status,\n      statusText: response.statusText,\n      headers: Object.fromEntries(response.headers.entries()),\n    \x7d);\n  \x7d catch (error) \x7b\n    const duration = Date.now() - startTime;\n    console.error(`\n❌ [$\x7bnew Date().toISOString()\x7d] [$\x7brequestId\x7d] Unexpected error after $\x7bduration\x7dms`);\n    console.error(`   Error: $\x7berror instanceof Error ? error.message : String(error)\x7d`);\n    if (error instanceof Error && error.stack) \x7b\n      console.error(`   Stack trace: $\x7berror.stack\x7d`);\n    \x7d\n    console.error(`\n💡 Troubleshooting tips:`);\n    console.error(`   - Check server logs for more details`);\n    console.error(`   - Verify the request format is correct`);\n    console.error(`   - Ensure all dependencies are properly installed`);\n    return c.json(\x7b \n      error: \"Internal server error\",\n      message: error instanceof Error ? error.message : String(error),\n      requestId \n    \x7d, 500);\n  \x7d\n\x7d);"

/-- All proxy route handlers joined (src/src/generator.ts line 286). -/
def proxyRoutes (c : ProjectConfig) : String :=
  String.intercalate "\n\n" (c.routes.map (proxyRouteFor c))

/-- The assembled server module text (src/src/generator.ts lines 288-386). -/
def serverFileText (c : ProjectConfig) : String :=
  "import \x7b config \x7d from \"dotenv\";\nimport \x7b Hono \x7d from \"hono\";\nimport \x7b serve \x7d from \"@hono/node-server\";\nimport \x7b paymentMiddleware, Network, Resource, SolanaAddress \x7d from \"x402-hono\";\n\nconfig();\n\nconst facilitatorUrl = process.env.FACILITATOR_URL as Resource;\nconst payTo = process.env.ADDRESS as `0x$\x7bstring\x7d` | SolanaAddress;\nconst network = process.env.NETWORK as Network;\nconst apiBaseUrl = process.env.API_BASE_URL || \"" ++ (c.baseUrl) ++ "\";\n\nconsole.log(\"🔧 Initializing x402 proxy server...\");\nconsole.log(`📡 Network: $\x7bnetwork || \"not set\"\x7d`);\nconsole.log(`🌐 API Base URL: $\x7bapiBaseUrl\x7d`);\nconsole.log(`💳 Facilitator URL: $\x7bfacilitatorUrl || \"not set\"\x7d`);\nconsole.log(`💰 Payment Address: $\x7bpayTo || \"not set\"\x7d`);\n\nif (!facilitatorUrl || !payTo || !network) \x7b\n  console.error(\"\n❌ Missing required environment variables\");\n  const missing: string[] = [];\n  if (!facilitatorUrl) missing.push(\"FACILITATOR_URL\");\n  if (!payTo) missing.push(\"ADDRESS\");\n  if (!network) missing.push(\"NETWORK\");\n  console.error(`   Missing: $\x7bmissing.join(\", \")\x7d`);\n  console.error(\"\n💡 Troubleshooting tips:\");\n  console.error(\"   - Ensure all required environment variables are set in your .env file\");\n  console.error(\"   - Check that FACILITATOR_URL is a valid URL\");\n  console.error(\"   - Verify ADDRESS is a valid blockchain address (Ethereum or Solana)\");\n  console.error(\"   - Ensure NETWORK matches your blockchain (e.g., solana-devnet, base, ethereum)\");\n  process.exit(1);\n\x7d\n\n// Authentication configuration\n" ++ ((match c.auth with | some a => generateAuthConfig a | none => "// No authentication configured")) ++ "\n" ++ ((match c.auth with | some a => "console.log(`✅ Authentication configured: " ++ a.type ++ "`);" | none => "console.log(`ℹ️  No authentication configured`);")) ++ "\n\nconst app = new Hono();\n\nconst port = Number(process.env.PORT) || 4021;\nconsole.log(`\n🚀 Starting server on port $\x7bport\x7d...`);\nconsole.log(`📡 Proxying requests to: $\x7bapiBaseUrl\x7d`);\n\n// Configure payment middleware - this enforces payment requirements\n// The middleware will return HTTP 402 (Payment Required) if:\n// - The X-PAYMENT header is missing\n// - The payment is invalid or insufficient\n// - The payment verification fails\n// Only requests with valid payment will proceed to the route handlers\napp.use(\n  paymentMiddleware(\n    payTo,\n    " ++ (paymentConfigStr c) ++ ",\n    \x7b\n      url: facilitatorUrl,\n    \x7d,\n  ),\n);\n\n// Proxy routes - these will only execute if payment is verified by the middleware above\n// If payment is missing or invalid, the middleware will return 402 before reaching these handlers\n" ++ (proxyRoutes c) ++ "\n\n// Catch-all route for unmatched paths - returns 404\napp.all(\"*\", (c) => \x7b\n  console.warn(`\n⚠️  [$\x7bnew Date().toISOString()\x7d] 404 Not Found`);\n  console.warn(`   Method: $\x7bc.req.method\x7d`);\n  console.warn(`   Path: $\x7bc.req.path\x7d`);\n  console.warn(`   URL: $\x7bc.req.url\x7d`);\n  console.warn(`\n💡 This path is not configured in the proxy server.`);\n  console.warn(`   Configured routes: " ++ ((String.intercalate ", " (c.routes.map (fun r => r.path)))) ++ "`);\n  return c.json(\x7b \n    error: \"Not Found\",\n    message: `The path $\x7bc.req.path\x7d is not configured in this proxy server`,\n    availableRoutes: " ++ (availableRoutesJson c.routes) ++ "\n  \x7d, 404);\n\x7d);\n\nconst server = serve(\x7b\n  fetch: app.fetch,\n  port,\n\x7d, (info) => \x7b\n  console.log(`\n✅ Server is running!`);\n  console.log(`   Port: $\x7binfo.port\x7d`);\n  console.log(`   Address: http://localhost:$\x7binfo.port\x7d`);\n  console.log(`   Network: $\x7bnetwork\x7d`);\n  console.log(`   Facilitator: $\x7bfacilitatorUrl\x7d`);\n  console.log(`   Payment Address: $\x7bpayTo\x7d`);\n  console.log(`\n📋 Configured routes:`);\n  " ++ ((String.intercalate "\n" (c.routes.map routeStartupLog))) ++ "\n  console.log(`\n🚀 Ready to accept requests!\n`);\n\x7d);\n\n// Fallback log in case callback doesn\x27t fire immediately\nsetTimeout(() => \x7b\n  console.log(`\n✅ Server is running on port $\x7bport\x7d`);\n  console.log(`   Address: http://localhost:$\x7bport\x7d`);\n\x7d, 100);\n"

/-- Auth section of the generated .env file (src/src/generator.ts lines 451-505). -/
def envAuthSection (a : AuthConfig) : String :=
  if a.type = "apiKey" then
    if jsTruthyStr a.headerName then "# API Key Authentication (Header)\nAPI_KEY_HEADER=" ++ ((a.headerName.getD "")) ++ "\nAPI_KEY=" ++ ((orElseStr a.value "")) ++ "\n"
    else if jsTruthyStr a.queryName then "# API Key Authentication (Query Parameter)\nAPI_KEY_QUERY=" ++ ((a.queryName.getD "")) ++ "\nAPI_KEY=" ++ ((orElseStr a.value "")) ++ "\n"
    else if jsTruthyStr a.cookieName then "# API Key Authentication (Cookie)\nAPI_KEY_COOKIE=" ++ ((a.cookieName.getD "")) ++ "\nAPI_KEY=" ++ ((orElseStr a.value "")) ++ "\n"
    else ""
  else if a.type = "bearer" then "# Bearer Token Authentication\nBEARER_TOKEN=" ++ ((orElseStr a.value "")) ++ "\n"
  else if a.type = "basic" then "# Basic Authentication\nBASIC_AUTH_USERNAME=" ++ ((orElseStr a.username "")) ++ "\nBASIC_AUTH_PASSWORD=" ++ ((orElseStr a.password "")) ++ "\n"
  else if a.type = "custom" then
    (match a.customHeaders with | some hs => "# Custom Headers Authentication\n" ++ ((String.intercalate "\n" (hs.map (fun kv => envCustomHeaderLine kv.1 kv.2)))) ++ "\n" | none => "") ++
    (match a.customQueryParams with | some qs => "# Custom Query Parameters Authentication\n" ++ ((String.intercalate "\n" (qs.map (fun kv => envCustomQueryLine kv.1 kv.2)))) ++ "\n" | none => "")
  else ""

/-- The generated .env file with actual credentials (src/src/generator.ts lines 450-518). -/
def generateEnv (c : ProjectConfig) : String :=
  let authSection := match c.auth with | some a => envAuthSection a | none => ""
  "# x402 Configuration\nFACILITATOR_URL=" ++ (envFacilitatorValue c) ++ "\nADDRESS=" ++ (c.sellerAddress) ++ "\nNETWORK=" ++ (c.network) ++ "\n\n# API Configuration\nAPI_BASE_URL=" ++ (c.baseUrl) ++ "\n" ++ (authSection) ++ "\n# Server Configuration\nPORT=4021\n"

/-- Auth section of the generated .env.example file (src/src/generator.ts lines 524-578). -/
def envExampleAuthSection (a : AuthConfig) : String :=
  if a.type = "apiKey" then
    if jsTruthyStr a.headerName then "# API Key Authentication (Header)\nAPI_KEY_HEADER=" ++ ((a.headerName.getD "")) ++ "\nAPI_KEY=your-api-key-here\n"
    else if jsTruthyStr a.queryName then "# API Key Authentication (Query Parameter)\nAPI_KEY_QUERY=" ++ ((a.queryName.getD "")) ++ "\nAPI_KEY=your-api-key-here\n"
    else if jsTruthyStr a.cookieName then "# API Key Authentication (Cookie)\nAPI_KEY_COOKIE=" ++ ((a.cookieName.getD "")) ++ "\nAPI_KEY=your-api-key-here\n"
    else ""
  else if a.type = "bearer" then "# Bearer Token Authentication\nBEARER_TOKEN=your-bearer-token-here\n"
  else if a.type = "basic" then "# Basic Authentication\nBASIC_AUTH_USERNAME=your-username-here\nBASIC_AUTH_PASSWORD=your-password-here\n"
  else if a.type = "custom" then
    (match a.customHeaders with | some hs => "# Custom Headers Authentication\n" ++ ((String.intercalate "\n" (hs.map (fun kv => exampleCustomHeaderLine kv.1)))) ++ "\n" | none => "") ++
    (match a.customQueryParams with | some qs => "# Custom Query Parameters Authentication\n" ++ ((String.intercalate "\n" (qs.map (fun kv => exampleCustomQueryLine kv.1)))) ++ "\n" | none => "")
  else ""

/-- The generated .env.example file with placeholder values (src/src/generator.ts lines 523-591). -/
def generateEnvExample (c : ProjectConfig) : String :=
  let authSection := match c.auth with | some a => envExampleAuthSection a | none => ""
  "# x402 Configuration\nFACILITATOR_URL=" ++ (envFacilitatorValue c) ++ "\nADDRESS=" ++ (c.sellerAddress) ++ "\nNETWORK=" ++ (c.network) ++ "\n\n# API Configuration\nAPI_BASE_URL=" ++ (c.baseUrl) ++ "\n" ++ (authSection) ++ "\n# Server Configuration\nPORT=4021\n"

/-- The generated README.md (src/src/generator.ts lines 596-660). -/
def generateReadme (c : ProjectConfig) : String :=
  "# " ++ (c.projectName) ++ "\n\n" ++ (c.description) ++ "\n\nThis is an x402 proxy server that adds payment functionality to your API endpoints.\n\n## Prerequisites\n\n- Node.js v20+ (install via [nvm](https://github.com/nvm-sh/nvm))\n- pnpm v10 (install via [pnpm.io/installation](https://pnpm.io/installation))\n- A valid blockchain address for receiving payments (Ethereum or Solana, depending on network)\n" ++ ((if c.network = "base" ∨ c.network = "base-mainnet" then "- Coinbase Developer Platform API Key & Secret (required for Base mainnet)\n  - Get them here [https://portal.cdp.coinbase.com/projects](https://portal.cdp.coinbase.com/projects)" else "")) ++ "\n\n## Setup\n\n1." ++ ((match c.auth with | some _ => " ✓ `.env` file has been created with your authentication credentials" | none => " Copy `.env.example` to `.env` and configure your settings:\n\n```bash\ncp .env.example .env\n```")) ++ "\n\n" ++ ((match c.auth with | some _ => "2." | none => "2.")) ++ " Install dependencies:\n\n```bash\npnpm install\n```\n\n" ++ ((match c.auth with | some _ => "3." | none => "3.")) ++ " Run the server:\n\n```bash\npnpm dev\n```\n\n## Configuration\n\nThe server proxies requests to: `" ++ (c.baseUrl) ++ "`\n\nAll endpoints require payment as configured. See the payment middleware configuration in `src/index.ts` for pricing details.\n\n## Routes\n\nThis server proxies the following routes:\n\n" ++ ((if c.routes.length > 0 then String.intercalate "\n" (c.routes.map (fun r => "- `" ++ r.path ++ "` - Price: `" ++ r.price ++ "`")) else ("- All routes - Price: `" ++ c.defaultPrice ++ "`"))) ++ "\n\n## Environment Variables\n\n- `FACILITATOR_URL` - The x402 facilitator URL (default: `https://facilitator.payai.network`)\n- `ADDRESS` - Your blockchain address for receiving payments (Ethereum or Solana, depending on network)\n- `NETWORK` - The blockchain network (default: `solana-devnet`)\n- `API_BASE_URL` - The base URL of the original API to proxy\n- `PORT` - The port to run the server on (default: 4021)\n\n## Learn More\n\n- [x402 Documentation](https://x402.gitbook.io/x402)\n- [x402 Website](https://www.x402.org)\n"

/-- The generated package.json (src/src/generator.ts lines 392-420): JSON.stringify with two-space indent. -/
def generatePackageJson (c : ProjectConfig) : String :=
  "\x7b\n  \"name\": " ++ jsonString c.projectName ++ ",\n  \"version\": \"0.1.0\",\n  \"description\": " ++ jsonString c.description ++ ",\n  \"type\": \"module\",\n  \"scripts\": \x7b\n    \"dev\": \"tsx src/index.ts\",\n    \"build\": \"tsup src/index.ts --format cjs,esm --dts --outDir dist\",\n    \"start\": \"node dist/index.js\"\n  \x7d,\n  \"dependencies\": \x7b\n    \"@hono/node-server\": \"^1.13.8\",\n    \"dotenv\": \"^16.4.7\",\n    \"hono\": \"^4.7.1\",\n    \"x402-hono\": \"^0.7.1\"\n  \x7d,\n  \"devDependencies\": \x7b\n    \"@types/node\": \"^20.0.0\",\n    \"tsup\": \"^7.2.0\",\n    \"tsx\": \"^4.7.0\",\n    \"typescript\": \"^5.3.0\"\n  \x7d\n\x7d"

/-- The generated tsconfig.json (src/src/generator.ts lines 425-445): a constant document. -/
def generateTsConfig : String :=
  "\x7b\n  \"compilerOptions\": \x7b\n    \"target\": \"ES2020\",\n    \"module\": \"ES2020\",\n    \"moduleResolution\": \"bundler\",\n    \"esModuleInterop\": true,\n    \"forceConsistentCasingInFileNames\": true,\n    \"skipLibCheck\": true,\n    \"strict\": true,\n    \"resolveJsonModule\": true,\n    \"baseUrl\": \".\",\n    \"types\": [\n      \"node\"\n    ]\n  \x7d,\n  \"include\": [\n    \"src/**/*.ts\"\n  ]\n\x7d"

/-- Translation of generateServerFile (src/src/generator.ts lines 143-387):
the empty-route check throws before any server text is assembled; otherwise
the assembled module text is returned. -/
def generateServerFile (c : ProjectConfig) : Except String String :=
  if c.routes.length = 0 then Except.error "At least one route is required"
  else Except.ok (serverFileText c)

/-- Translation of generateProject (src/src/generator.ts lines 665-703): the
server module is generated first (its error aborts everything, wrapped in a
"Failed to generate project" message) and then the six artifacts are written,
modelled as an ordered list of (relative path, content) pairs. -/
def generateProject (c : ProjectConfig) : Except String (List (String × String)) :=
  match generateServerFile c with
  | Except.error e => Except.error ("Failed to generate project: " ++ e)
  | Except.ok serverContent =>
      Except.ok
        [("src/index.ts", serverContent),
         ("package.json", generatePackageJson c),
         ("tsconfig.json", generateTsConfig),
         (".env", generateEnv c),
         (".env.example", generateEnvExample c),
         ("README.md", generateReadme c)]

/-- Splits a URL at the first "://" occurrence, the essential behaviour of
`new URL` needed to model the generated handler: scheme before, remainder
after. -/
def breakOnScheme : List Char → Option (List Char × List Char)
  | [] => none
  | ':' :: '/' :: '/' :: tail => some ([], tail)
  | ch :: rest => (breakOnScheme rest).map (fun pr => (ch :: pr.1, pr.2))

/-- Origin (scheme plus host) of a URL, modelling `new URL(u).origin` for the
absolute http(s) URLs the generator validates. -/
def urlOrigin (u : String) : String :=
  match breakOnScheme u.data with
  | some (sch, rest) => String.mk sch ++ "://" ++ String.mk (rest.takeWhile (fun ch => ch != '/'))
  | none => u

/-- Pathname of a URL, modelling `new URL(u).pathname`: "/" when the URL has
no path component. -/
def urlPathname (u : String) : String :=
  match breakOnScheme u.data with
  | some (_, rest) =>
      let p := rest.dropWhile (fun ch => ch != '/')
      if p.isEmpty then "/" else String.mk p
  | none => "/"

/-- Runtime model of the upstream target-URL construction in the generated
handler text (emitted by proxyRouteFor, source lines 184-192): strip the
leading slash from the request path, ensure the base pathname ends with "/",
join them, and resolve against the base origin. -/
def buildTargetUrl (apiBaseUrl reqPath : String) : String :=
  let requestPath := if reqPath.data.head? = some '/' then String.mk (reqPath.data.drop 1) else reqPath
  let pn := urlPathname apiBaseUrl
  let basePathname := if pn.data.getLast? = some '/' then pn else pn ++ "/"
  urlOrigin apiBaseUrl ++ (basePathname ++ requestPath)

/-- The upstream request issued by the generated handler: same method as the
incoming request, the constructed target URL, and a body only for methods
other than GET and HEAD (emitted by proxyRouteFor, source lines 213-222). -/
structure UpstreamRequest where
  method : String
  url : String
  hasBody : Bool
deriving DecidableEq

/-- Builds the upstream request the generated handler forwards. -/
def mkUpstreamRequest (apiBaseUrl reqPath method : String) : UpstreamRequest :=
  { method := method
    url := buildTargetUrl apiBaseUrl reqPath
    hasBody := !(method == "GET" || method == "HEAD") }

/-- Missing required variables reported by the generated server at startup,
in source order (emitted by serverFileText, source lines 306-319). -/
def startupMissing (env : String → Option String) : List String :=
  (if jsTruthyStr (env "FACILITATOR_URL") then [] else ["FACILITATOR_URL"]) ++
  (if jsTruthyStr (env "ADDRESS") then [] else ["ADDRESS"]) ++
  (if jsTruthyStr (env "NETWORK") then [] else ["NETWORK"])

/-- Whether the generated server survives its startup validation: it calls
`process.exit(1)` iff any of FACILITATOR_URL, ADDRESS, NETWORK is unset or
empty (emitted by serverFileText, source lines 306-319). -/
def serverBoots (env : String → Option String) : Bool :=
  jsTruthyStr (env "FACILITATOR_URL") && jsTruthyStr (env "ADDRESS") && jsTruthyStr (env "NETWORK")

/-- The facilitatorUrl binding of the generated server: the raw environment
read, with no fallback (emitted by serverFileText, source line 295). -/
def serverFacilitatorBinding (env : String → Option String) : Option String :=
  env "FACILITATOR_URL"

/-- The apiBaseUrl binding of the generated server: the environment read with
the configured base URL baked in as fallback (emitted by serverFileText,
source line 298). -/
def serverApiBaseUrl (c : ProjectConfig) (env : String → Option String) : String :=
  orElseStr (env "API_BASE_URL") c.baseUrl

/-- Whether a route pattern contains an OpenAPI-style brace segment. -/
def hasParamBrace (p : String) : Bool :=
  p.data.contains '\x7b'

/-- Substring helper: true when pat occurs inside the character list. -/
def containsSub (pat : List Char) : List Char → Bool
  | [] => pat.isPrefixOf ([] : List Char)
  | ch :: rest => pat.isPrefixOf (ch :: rest) || containsSub pat rest

/-- Substring test on strings. -/
def strContains (s pat : String) : Bool :=
  containsSub pat.data s.data

/-- Environment-variable names read via process.env by the declaration
fragment, one entry per read, mirroring the branch structure of
generateAuthConfig (src/src/generator.ts lines 13-77). -/
def declEnvNames (auth : AuthConfig) : List String :=
  if auth.type = "apiKey" then
    if jsTruthyStr auth.headerName then ["API_KEY_HEADER", "API_KEY"]
    else if jsTruthyStr auth.queryName then ["API_KEY_QUERY", "API_KEY"]
    else if jsTruthyStr auth.cookieName then ["API_KEY_COOKIE", "API_KEY"]
    else []
  else if auth.type = "bearer" then ["BEARER_TOKEN"]
  else if auth.type = "basic" then ["BASIC_AUTH_USERNAME", "BASIC_AUTH_PASSWORD"]
  else if auth.type = "custom" then
    (match auth.customHeaders with
     | some hs => hs.map (fun kv => "CUSTOM_HEADER_" ++ sanitizeKey kv.1)
     | none => []) ++
    (match auth.customQueryParams with
     | some qs => qs.map (fun kv => "CUSTOM_QUERY_" ++ sanitizeKey kv.1)
     | none => [])
  else []

/-- Environment-variable names assigned in the auth section of the generated
.env, mirroring the branch structure of envAuthSection
(src/src/generator.ts lines 451-505). -/
def envFileAuthNames (auth : AuthConfig) : List String :=
  if auth.type = "apiKey" then
    if jsTruthyStr auth.headerName then ["API_KEY_HEADER", "API_KEY"]
    else if jsTruthyStr auth.queryName then ["API_KEY_QUERY", "API_KEY"]
    else if jsTruthyStr auth.cookieName then ["API_KEY_COOKIE", "API_KEY"]
    else []
  else if auth.type = "bearer" then ["BEARER_TOKEN"]
  else if auth.type = "basic" then ["BASIC_AUTH_USERNAME", "BASIC_AUTH_PASSWORD"]
  else if auth.type = "custom" then
    (match auth.customHeaders with
     | some hs => hs.map (fun kv => "CUSTOM_HEADER_" ++ sanitizeKey kv.1)
     | none => []) ++
    (match auth.customQueryParams with
     | some qs => qs.map (fun kv => "CUSTOM_QUERY_" ++ sanitizeKey kv.1)
     | none => [])
  else []

/-- Environment-variable names assigned in the auth section of the generated
.env.example, mirroring the branch structure of envExampleAuthSection
(src/src/generator.ts lines 524-578). -/
def envExampleAuthNames (auth : AuthConfig) : List String :=
  if auth.type = "apiKey" then
    if jsTruthyStr auth.headerName then ["API_KEY_HEADER", "API_KEY"]
    else if jsTruthyStr auth.queryName then ["API_KEY_QUERY", "API_KEY"]
    else if jsTruthyStr auth.cookieName then ["API_KEY_COOKIE", "API_KEY"]
    else []
  else if auth.type = "bearer" then ["BEARER_TOKEN"]
  else if auth.type = "basic" then ["BASIC_AUTH_USERNAME", "BASIC_AUTH_PASSWORD"]
  else if auth.type = "custom" then
    (match auth.customHeaders with
     | some hs => hs.map (fun kv => "CUSTOM_HEADER_" ++ sanitizeKey kv.1)
     | none => []) ++
    (match auth.customQueryParams with
     | some qs => qs.map (fun kv => "CUSTOM_QUERY_" ++ sanitizeKey kv.1)
     | none => [])
  else []

/-- The concrete configuration of the specification scenario: one wildcard
route "/api/*" at price "$0.001", network "base", seller address of forty
1-digits, base URL https://api.example.com, no auth, no facilitator URL. -/
def scenarioConfig : ProjectConfig :=
  { projectName := "to402-server"
    description := "An x402 proxy server"
    baseUrl := "https://api.example.com"
    defaultPrice := "$0.001"
    sellerAddress := "0x1111111111111111111111111111111111111111"
    network := "base"
    routes := [{ path := "/api/*", price := "$0.001" }] }

/-- A configuration whose route list is empty. -/
def emptyRoutesConfig : ProjectConfig :=
  { projectName := "to402-server"
    description := "An x402 proxy server"
    baseUrl := "https://api.example.com"
    defaultPrice := "$0.001"
    sellerAddress := "0x1111111111111111111111111111111111111111"
    network := "base"
    routes := [] }

/-- An apiKey auth record with none of the three placements populated. -/
def apiKeyNoPlacement : AuthConfig :=
  { type := "apiKey", value := some "secret-key" }

/-- The scenario configuration with the placement-less apiKey auth. -/
def apiKeyNoPlacementConfig : ProjectConfig :=
  { scenarioConfig with auth := some apiKeyNoPlacement }

/-- A custom auth record with one header key and one query key. -/
def customAuthExample : AuthConfig :=
  { type := "custom"
    customHeaders := some [("X-Api-Key", "k1")]
    customQueryParams := some [("api key", "k2")] }

/-- The artifact list produced for the scenario configuration. -/
def scenarioFiles : List (String × String) :=
  [("src/index.ts", serverFileText scenarioConfig),
   ("package.json", generatePackageJson scenarioConfig),
   ("tsconfig.json", generateTsConfig),
   (".env", generateEnv scenarioConfig),
   (".env.example", generateEnvExample scenarioConfig),
   ("README.md", generateReadme scenarioConfig)]

/-- Merging the fixed .env prefix around the default facilitator URL. -/
theorem env_facilitator_prefix_eq (t : String) :
    "# x402 Configuration\nFACILITATOR_URL=" ++
      ("https://facilitator.payai.network" ++ ("\nADDRESS=" ++ t)) =
    "# x402 Configuration\nFACILITATOR_URL=https://facilitator.payai.network\nADDRESS=" ++ t := by
  rw [← String.append_assoc, ← String.append_assoc]
  congr 1

/-- C1 counterexample: the claim says a pattern containing a brace segment is
rewritten to the framework named-parameter syntax, so a pattern containing
an id brace segment should yield a normalized pattern containing ":id".  On
the code the route pattern "/users/(braced id)" is registered unchanged: the
normalized pattern still contains the brace segment and does not contain
":id", and no parameter-presence flag is computed anywhere. -/
theorem C1_counterexample :
    routePathOf "/users/\x7bid\x7d" = "/users/\x7bid\x7d" ∧
    paymentPathOf "/users/\x7bid\x7d" = "/users/\x7bid\x7d" ∧
    strContains (routePathOf "/users/\x7bid\x7d") ":id" = false ∧
    hasParamBrace "/users/\x7bid\x7d" = true := by
  decide

/-- C1 (amended): the server-module generator performs no brace-segment
rewriting at all: every route pattern containing a brace is embedded
unchanged both in the registered route pattern and in the payment key, and
no parameter-presence flag exists. -/
theorem C1_amended_no_param_rewrite (p : String) (h : hasParamBrace p = true) :
    routePathOf p = p ∧ paymentPathOf p = p := by
  have hne : p ≠ "/*" := by
    intro he
    subst he
    exact absurd h (by decide)
  constructor
  · simp [routePathOf, hne]
  · simp [paymentPathOf, hne]

/-- Witness for C1 (amended) at a concrete braced pattern. -/
theorem C1_witness :
    routePathOf "/users/\x7bid\x7d.json" = "/users/\x7bid\x7d.json" ∧
    paymentPathOf "/users/\x7bid\x7d.json" = "/users/\x7bid\x7d.json" :=
  C1_amended_no_param_rewrite "/users/\x7bid\x7d.json" (by decide)

/-- C2 counterexample: the claim says a GET to "/api/items" is proxied to
"https://api.example.com/items"; the generated handler appends the full
incoming path to the base URL, producing
"https://api.example.com/api/items" instead. -/
theorem C2_counterexample :
    (mkUpstreamRequest scenarioConfig.baseUrl "/api/items" "GET").url =
      "https://api.example.com/api/items" ∧
    (mkUpstreamRequest scenarioConfig.baseUrl "/api/items" "GET").url ≠
      "https://api.example.com/items" := by
  decide

/-- C2 (amended): for the scenario configuration the payment configuration
has exactly one entry, keyed by the wildcard-normalized form of "/api/*"
(which is "/api/*" itself, since only the whole-path "/*" is rewritten),
with price "$0.001"; the emitted .env supplies NETWORK=base to the entry's
shared network binding; and the generated handler maps an incoming GET to
"/api/items" to an upstream GET, without body, whose target URL is
"https://api.example.com/api/items" (the full incoming path is appended to
the base URL; no route prefix is stripped). -/
theorem C2_amended_scenario :
    scenarioConfig.routes.map (fun r => (paymentPathOf r.path, r.price)) =
      [("/api/*", "$0.001")] ∧
    paymentConfigStr scenarioConfig =
      "\x7b\n    \"/api/*\": \x7b\n      price: \"$0.001\",\n      network,\n    \x7d\n  \x7d" ∧
    generateEnv scenarioConfig =
      "# x402 Configuration\nFACILITATOR_URL=https://facilitator.payai.network\nADDRESS=0x1111111111111111111111111111111111111111\nNETWORK=base\n\n# API Configuration\nAPI_BASE_URL=https://api.example.com\n\n# Server Configuration\nPORT=4021\n" ∧
    mkUpstreamRequest scenarioConfig.baseUrl "/api/items" "GET" =
      { method := "GET", url := "https://api.example.com/api/items", hasBody := false } := by
  refine ⟨by decide, by decide, by decide, by decide⟩

/-- C3: project generation is a deterministic pure function of the
configuration record: equal configurations yield equal artifact lists, hence
two runs from the same record produce byte-identical contents for every
generated file.  The embedding is effect-free exactly as the source is:
generateProject consults nothing besides its ProjectConfig argument (the
Date/UUID calls in the source occur only inside the emitted server text, not
during generation). -/
theorem C3_deterministic (c₁ c₂ : ProjectConfig) (h : c₁ = c₂) :
    generateProject c₁ = generateProject c₂ := by
  rw [h]

/-- Witness for C3 at the scenario configuration. -/
theorem C3_witness :
    generateProject scenarioConfig = generateProject scenarioConfig :=
  C3_deterministic scenarioConfig scenarioConfig rfl

/-- C4: for every AuthConfig the environment-variable names read by the
declaration fragment coincide with the names assigned in the .env auth
section and in the .env.example auth section; for custom auth each name is
the uppercase key with every character outside A-Z0-9 replaced by an
underscore, prefixed CUSTOM_HEADER_ or CUSTOM_QUERY_, and every character of
a sanitized key is in A-Z, in 0-9 or an underscore. -/
theorem C4_auth_env_consistency (auth : AuthConfig) :
    declEnvNames auth = envFileAuthNames auth ∧
    declEnvNames auth = envExampleAuthNames auth ∧
    (auth.type = "custom" →
      envFileAuthNames auth =
        (match auth.customHeaders with
         | some hs => hs.map (fun kv => "CUSTOM_HEADER_" ++ sanitizeKey kv.1)
         | none => []) ++
        (match auth.customQueryParams with
         | some qs => qs.map (fun kv => "CUSTOM_QUERY_" ++ sanitizeKey kv.1)
         | none => [])) ∧
    (∀ k : String, ∀ ch ∈ (sanitizeKey k).data,
      ('A' ≤ ch ∧ ch ≤ 'Z') ∨ ('0' ≤ ch ∧ ch ≤ '9') ∨ ch = '_') := by
  refine ⟨rfl, rfl, ?_, ?_⟩
  · intro ht
    simp [envFileAuthNames, ht]
  · intro k ch hch
    have hmem : ch ∈ (jsToUpper k).data.map
        (fun c => if ('A' ≤ c ∧ c ≤ 'Z') ∨ ('0' ≤ c ∧ c ≤ '9') then c else '_') := hch
    obtain ⟨c₀, _, rfl⟩ := List.mem_map.mp hmem
    by_cases h : ('A' ≤ c₀ ∧ c₀ ≤ 'Z') ∨ ('0' ≤ c₀ ∧ c₀ ≤ '9')
    · rw [if_pos h]
      tauto
    · rw [if_neg h]
      tauto

/-- Witness for C4 at a custom auth with keys "X-Api-Key" and "api key". -/
theorem C4_witness :
    declEnvNames customAuthExample = envFileAuthNames customAuthExample ∧
    envFileAuthNames customAuthExample = ["CUSTOM_HEADER_X_API_KEY", "CUSTOM_QUERY_API_KEY"] :=
  ⟨(C4_auth_env_consistency customAuthExample).1,
   by
    have h := (C4_auth_env_consistency customAuthExample).2.2.1 rfl
    rw [h]
    decide⟩

/-- C5: with an empty route list, generateServerFile fails with the single
descriptive error before any server text is assembled, generateProject
surfaces it wrapped, and no artifact list (in particular no server module)
is produced. -/
theorem C5_zero_routes (c : ProjectConfig) (h : c.routes = []) :
    generateServerFile c = Except.error "At least one route is required" ∧
    generateProject c = Except.error "Failed to generate project: At least one route is required" ∧
    ∀ fs : List (String × String), generateProject c ≠ Except.ok fs := by
  have hlen : c.routes.length = 0 := by rw [h]; rfl
  have h1 : generateServerFile c = Except.error "At least one route is required" := by
    simp [generateServerFile, hlen]
  have h2 : generateProject c = Except.error "Failed to generate project: At least one route is required" := by
    simp [generateProject, h1]
  refine ⟨h1, h2, ?_⟩
  intro fs hfs
  rw [h2] at hfs
  exact Except.noConfusion hfs

/-- Witness for C5 at the concrete empty-route configuration. -/
theorem C5_witness :
    generateServerFile emptyRoutesConfig = Except.error "At least one route is required" ∧
    generateProject emptyRoutesConfig =
      Except.error "Failed to generate project: At least one route is required" ∧
    ∀ fs : List (String × String), generateProject emptyRoutesConfig ≠ Except.ok fs :=
  C5_zero_routes emptyRoutesConfig rfl

/-- C6: a route pattern with no brace segment is embedded unchanged as both
the payment-configuration key and the registered route pattern, except that
the whole-path wildcard "/*" becomes the catch-all token "*" in both
places. -/
theorem C6_no_brace_identity (p : String) (h : hasParamBrace p = false) :
    (p ≠ "/*" → paymentPathOf p = p ∧ routePathOf p = p) ∧
    (p = "/*" → paymentPathOf p = "*" ∧ routePathOf p = "*") := by
  constructor
  · intro hne
    constructor
    · simp [paymentPathOf, hne]
    · simp [routePathOf, hne]
  · intro he
    subst he
    exact ⟨by decide, by decide⟩

/-- Witness for C6 at the concrete pattern "/api/*". -/
theorem C6_witness :
    paymentPathOf "/api/*" = "/api/*" ∧ routePathOf "/api/*" = "/api/*" :=
  (C6_no_brace_identity "/api/*" (by decide)).1 (by decide)

/-- C7: the payment-configuration entry of every configured route carries
that route's own resolved price: an overriding price is used verbatim, the
whole payment configuration is independent of defaultPrice (so the default
can never displace an override), and a route whose resolved price equals the
default price yields exactly the default price. -/
theorem C7_price_precedence (c : ProjectConfig) (r : RouteConfig) (hr : r ∈ c.routes) (d : String) :
    paymentConfigEntry r =
      "    \"" ++ paymentPathOf r.path ++ "\": \x7b\n      price: \"" ++ r.price ++ "\",\n      network,\n    \x7d" ∧
    paymentConfigStr { c with defaultPrice := d } = paymentConfigStr c ∧
    (r.price = c.defaultPrice →
      paymentConfigEntry r =
        "    \"" ++ paymentPathOf r.path ++ "\": \x7b\n      price: \"" ++ c.defaultPrice ++ "\",\n      network,\n    \x7d") := by
  refine ⟨rfl, ?_, ?_⟩
  · cases c
    rfl
  · intro hp
    rw [← hp]
    exact rfl

/-- Witness for C7 at the scenario configuration and its single route. -/
theorem C7_witness :
    paymentConfigEntry { path := "/api/*", price := "$0.001" } =
      "    \"" ++ paymentPathOf "/api/*" ++ "\": \x7b\n      price: \"" ++ "$0.001" ++ "\",\n      network,\n    \x7d" ∧
    paymentConfigStr { scenarioConfig with defaultPrice := "$9" } = paymentConfigStr scenarioConfig ∧
    ("$0.001" = scenarioConfig.defaultPrice →
      paymentConfigEntry { path := "/api/*", price := "$0.001" } =
        "    \"" ++ paymentPathOf "/api/*" ++ "\": \x7b\n      price: \"" ++ scenarioConfig.defaultPrice ++ "\",\n      network,\n    \x7d") :=
  C7_price_precedence scenarioConfig { path := "/api/*", price := "$0.001" } (by decide) "$9"

/-- C8 counterexample: the claim says no real .env file is produced for a
configuration with no auth; but generateProject writes .env unconditionally,
as the artifact list of the auth-less scenario configuration shows. -/
theorem C8_counterexample :
    (generateProject scenarioConfig).map (fun fs => fs.map Prod.fst) =
      Except.ok ["src/index.ts", "package.json", "tsconfig.json", ".env", ".env.example", "README.md"] ∧
    scenarioConfig.auth = none :=
  ⟨rfl, rfl⟩

/-- C8 (amended): whenever generation succeeds it writes both environment
files unconditionally: the artifact list always contains a real .env (whose
auth section is simply empty when no auth was configured) and the
placeholder .env.example. -/
theorem C8_env_always_written (c : ProjectConfig) (fs : List (String × String))
    (h : generateProject c = Except.ok fs) :
    fs.map Prod.fst =
      ["src/index.ts", "package.json", "tsconfig.json", ".env", ".env.example", "README.md"] ∧
    (".env", generateEnv c) ∈ fs ∧
    (".env.example", generateEnvExample c) ∈ fs := by
  unfold generateProject at h
  cases hsf : generateServerFile c with
  | error e =>
      rw [hsf] at h
      exact Except.noConfusion h
  | ok s =>
      rw [hsf] at h
      have hfs : [("src/index.ts", s), ("package.json", generatePackageJson c),
          ("tsconfig.json", generateTsConfig), (".env", generateEnv c),
          (".env.example", generateEnvExample c), ("README.md", generateReadme c)] = fs := by
        injection h
      subst hfs
      refine ⟨rfl, ?_, ?_⟩
      · simp
      · simp

/-- Witness for C8 (amended) at the scenario configuration. -/
theorem C8_witness :
    scenarioFiles.map Prod.fst =
      ["src/index.ts", "package.json", "tsconfig.json", ".env", ".env.example", "README.md"] ∧
    (".env", generateEnv scenarioConfig) ∈ scenarioFiles ∧
    (".env.example", generateEnvExample scenarioConfig) ∈ scenarioFiles :=
  C8_env_always_written scenarioConfig scenarioFiles rfl

/-- C9: an apiKey AuthConfig with none of headerName, queryName, cookieName
populated produces empty declaration and injection fragments, empty auth
sections in both environment files, reads no auth environment variables, and
generation still succeeds with the full artifact list and no error: the
degenerate auth is silently ignored. -/
theorem C9_apikey_no_placement (auth : AuthConfig)
    (ht : auth.type = "apiKey")
    (h1 : jsTruthyStr auth.headerName = false)
    (h2 : jsTruthyStr auth.queryName = false)
    (h3 : jsTruthyStr auth.cookieName = false) :
    generateAuthConfig auth = "" ∧
    generateAuthCode auth = "" ∧
    envAuthSection auth = "" ∧
    envExampleAuthSection auth = "" ∧
    declEnvNames auth = [] ∧
    (∀ c : ProjectConfig, c.auth = some auth → c.routes ≠ [] →
      generateProject c = Except.ok
        [("src/index.ts", serverFileText c), ("package.json", generatePackageJson c),
         ("tsconfig.json", generateTsConfig), (".env", generateEnv c),
         (".env.example", generateEnvExample c), ("README.md", generateReadme c)]) := by
  refine ⟨?_, ?_, ?_, ?_, ?_, ?_⟩
  · simp [generateAuthConfig, ht, h1, h2, h3]
  · simp [generateAuthCode, ht, h1, h2, h3]
  · simp [envAuthSection, ht, h1, h2, h3]
  · simp [envExampleAuthSection, ht, h1, h2, h3]
  · simp [declEnvNames, ht, h1, h2, h3]
  · intro c _ hr
    have hlen : c.routes.length ≠ 0 := fun h0 => hr (List.length_eq_zero.mp h0)
    unfold generateProject generateServerFile
    rw [if_neg hlen]

/-- Witness for C9 at the concrete placement-less apiKey auth. -/
theorem C9_witness :
    generateAuthConfig apiKeyNoPlacement = "" ∧
    generateAuthCode apiKeyNoPlacement = "" ∧
    envAuthSection apiKeyNoPlacement = "" ∧
    envExampleAuthSection apiKeyNoPlacement = "" ∧
    generateProject apiKeyNoPlacementConfig = Except.ok
      [("src/index.ts", serverFileText apiKeyNoPlacementConfig),
       ("package.json", generatePackageJson apiKeyNoPlacementConfig),
       ("tsconfig.json", generateTsConfig),
       (".env", generateEnv apiKeyNoPlacementConfig),
       (".env.example", generateEnvExample apiKeyNoPlacementConfig),
       ("README.md", generateReadme apiKeyNoPlacementConfig)] := by
  have h := C9_apikey_no_placement apiKeyNoPlacement rfl (by decide) (by decide) (by decide)
  exact ⟨h.1, h.2.1, h.2.2.1, h.2.2.2.1,
    h.2.2.2.2.2 apiKeyNoPlacementConfig rfl (by decide)⟩

/-- C10: when facilitatorUrl is absent from the configuration, both
generated environment files set FACILITATOR_URL to the literal default
"https://facilitator.payai.network"; the generated server binds
FACILITATOR_URL to the raw environment read with no fallback and refuses to
boot (exits) whenever that variable is unset or empty, reporting it among
the missing variables — so the default exists only through the emitted
environment files. -/
theorem C10_facilitator_default (c : ProjectConfig) (env : String → Option String)
    (hf : c.facilitatorUrl = none)
    (he : jsTruthyStr (env "FACILITATOR_URL") = false) :
    envFacilitatorValue c = "https://facilitator.payai.network" ∧
    (∃ rest : String, generateEnv c =
      "# x402 Configuration\nFACILITATOR_URL=https://facilitator.payai.network\nADDRESS=" ++ rest) ∧
    (∃ rest : String, generateEnvExample c =
      "# x402 Configuration\nFACILITATOR_URL=https://facilitator.payai.network\nADDRESS=" ++ rest) ∧
    serverFacilitatorBinding env = env "FACILITATOR_URL" ∧
    serverBoots env = false ∧
    "FACILITATOR_URL" ∈ startupMissing env := by
  have hv : envFacilitatorValue c = "https://facilitator.payai.network" := by
    simp [envFacilitatorValue, orElseStr, hf]
  refine ⟨hv, ?_, ?_, rfl, ?_, ?_⟩
  · refine ⟨c.sellerAddress ++ ("\nNETWORK=" ++ (c.network ++
      ("\n\n# API Configuration\nAPI_BASE_URL=" ++ (c.baseUrl ++ ("\n" ++
      ((match c.auth with | some a => envAuthSection a | none => "") ++
        "\n# Server Configuration\nPORT=4021\n")))))), ?_⟩
    simp only [generateEnv, hv]
    simp only [String.append_assoc]
    exact env_facilitator_prefix_eq _
  · refine ⟨c.sellerAddress ++ ("\nNETWORK=" ++ (c.network ++
      ("\n\n# API Configuration\nAPI_BASE_URL=" ++ (c.baseUrl ++ ("\n" ++
      ((match c.auth with | some a => envExampleAuthSection a | none => "") ++
        "\n# Server Configuration\nPORT=4021\n")))))), ?_⟩
    simp only [generateEnvExample, hv]
    simp only [String.append_assoc]
    exact env_facilitator_prefix_eq _
  · simp [serverBoots, he]
  · simp [startupMissing, he]

/-- Witness for C10 at the scenario configuration with an empty process
environment. -/
theorem C10_witness :
    envFacilitatorValue scenarioConfig = "https://facilitator.payai.network" ∧
    (∃ rest : String, generateEnv scenarioConfig =
      "# x402 Configuration\nFACILITATOR_URL=https://facilitator.payai.network\nADDRESS=" ++ rest) ∧
    (∃ rest : String, generateEnvExample scenarioConfig =
      "# x402 Configuration\nFACILITATOR_URL=https://facilitator.payai.network\nADDRESS=" ++ rest) ∧
    serverFacilitatorBinding (fun _ => none) = (fun _ => none : String → Option String) "FACILITATOR_URL" ∧
    serverBoots (fun _ => none) = false ∧
    "FACILITATOR_URL" ∈ startupMissing (fun _ => none) :=
  C10_facilitator_default scenarioConfig (fun _ => none) rfl rfl
